import Mathlib

/-
Verification of the voice-agent relay and turn-taking state machine.

The definitions below are a shallow embedding of the JavaScript sources:
  - server.js : multi-client socket server (createVoiceSession callbacks,
    the audio-data / start-voice-session socket handlers, and
    generateSystemInstruction);
  - index.js / final.js : single-session CLI relay (runLiveVoice and
    runLiveVoiceWithContext callbacks, micStream data handler, and the
    context system-instruction builder).

Conventions of the embedding:
  - JavaScript optional-chaining fields become Option; JS truthiness of a
    string field (empty string is falsy) is an explicit test against "".
  - The two closure booleans isAIResponding / isConnected of a session
    become the explicit VoiceState record.
  - Socket emissions, console logging, microphone / speaker control and
    calls into the upstream session object become explicit effect values
    returned by the handlers, listed in the order the code performs them.
  - sendRealtimeInput may throw; a handler that calls it takes a sendOk
    flag selecting the try or the catch branch.
  - Base64 transcoding of audio payloads (chunk.toString of the mic data,
    Buffer.from of a received chunk) is a bijective transport detail; the
    effect values carry the payload string unchanged.
-/

/-- One sample-rate constant of the sources (MIC_SAMPLE_RATE = 16000). -/
def MIC_SAMPLE_RATE : Nat := 16000

/-- The mime type string sent with every upstream audio frame. -/
def micMimeType : String := "audio/pcm;rate=" ++ toString MIC_SAMPLE_RATE

/-- part.inlineData of an upstream message: payload plus optional mime type. -/
structure InlineData where
  data : String
  mimeType : Option String
deriving DecidableEq

/-- One element of serverContent.modelTurn.parts. -/
structure MessagePart where
  inlineData : Option InlineData
deriving DecidableEq

/-- serverContent of an upstream message. modelTurnParts is some when both
modelTurn and modelTurn.parts are present (the truthiness test of the code). -/
structure ServerContent where
  modelTurnParts : Option (List MessagePart)
  turnComplete : Bool
deriving DecidableEq

/-- An upstream message as the onmessage callbacks inspect it. -/
structure UpstreamMessage where
  serverContent : Option ServerContent
  usageMetadata : Option Nat
deriving DecidableEq

/-- The two closure booleans of one voice session (both sources). -/
structure VoiceState where
  isConnected : Bool
  isAIResponding : Bool
deriving DecidableEq

/-- JS pattern x || d for an optional string: the default replaces both a
missing and an empty (falsy) value. -/
def jsOrDefault : Option String → String → String
  | some s, d => if s = "" then d else s
  | none, d => d

/-- Observable effects of the server-mode handlers (socket emissions,
console lines, calls on the upstream session object). -/
inductive ServerEffect where
  | log (line : String)
  | emitAiSpeakingStart
  | emitAudioResponse (audioData mimeType : String)
  | emitAiSpeakingEnd
  | emitTokenUsage (totalTokens : Nat)
  | emitVoiceConnected
  | emitVoiceDisconnected
  | emitVoiceError (message : String)
  | emitError (message : String)
  | emitVoiceSessionStarted
  | upstreamSend (data mimeType : String)
  | upstreamStreamEnd
  | upstreamClose
deriving DecidableEq

/-- Effects emitted per part of a model turn (server.js onmessage body):
a detail log line and the audio-response emission, skipped when
part.inlineData.data is absent or empty (falsy). -/
def partEffects (p : MessagePart) : List ServerEffect :=
  match p.inlineData with
  | some d =>
      if d.data = "" then []
      else [ServerEffect.log "Audio chunk details",
            ServerEffect.emitAudioResponse d.data (jsOrDefault d.mimeType "audio/pcm")]
  | none => []

/-- The onmessage callback of createVoiceSession (server.js): folds one
upstream message into the isAIResponding flag and returns the emissions in
order. The branch order mirrors the else-if chain of the source. -/
def onmessage (isAIResponding : Bool) (m : UpstreamMessage) :
    Bool × List ServerEffect :=
  match m.serverContent with
  | some sc =>
    match sc.modelTurnParts with
    | some parts =>
        (true,
          (if isAIResponding then [] else [ServerEffect.emitAiSpeakingStart]) ++
          (parts.map partEffects).flatten)
    | none =>
        if sc.turnComplete then
          if isAIResponding then (false, [ServerEffect.emitAiSpeakingEnd])
          else (isAIResponding, [])
        else
          match m.usageMetadata with
          | some n => (isAIResponding, [ServerEffect.emitTokenUsage n])
          | none => (isAIResponding, [])
  | none =>
    match m.usageMetadata with
    | some n => (isAIResponding, [ServerEffect.emitTokenUsage n])
    | none => (isAIResponding, [])

/-- Observable effects of the CLI-mode handlers (index.js / final.js). -/
inductive CliEffect where
  | logLine (line : String)
  | micStart
  | micPause
  | micResume
  | micStop
  | speakerWrite (data : String)
  | speakerEnd
  | sendAudio (data mimeType : String)
  | sendStreamEnd
  | sessionClose
  | processExit
deriving DecidableEq

/-- Per-part effects of the CLI onmessage body: write the chunk to the
speaker when part.inlineData.data is present and nonempty. -/
def cliPartEffects (p : MessagePart) : List CliEffect :=
  match p.inlineData with
  | some d => if d.data = "" then [] else [CliEffect.speakerWrite d.data]
  | none => []

/-- The onmessage callback of runLiveVoice (index.js; runLiveVoiceWithContext
of final.js is textually identical). -/
def cliOnmessage (isAIResponding : Bool) (m : UpstreamMessage) :
    Bool × List CliEffect :=
  match m.serverContent with
  | some sc =>
    match sc.modelTurnParts with
    | some parts =>
        (true,
          (if isAIResponding then []
           else [CliEffect.logLine "AI Speaking, microphone paused...",
                 CliEffect.micPause]) ++
          (parts.map cliPartEffects).flatten)
    | none =>
        if sc.turnComplete then
          if isAIResponding then
            (false, [CliEffect.logLine "AI turn complete. Resuming microphone...",
                     CliEffect.micResume,
                     CliEffect.logLine "Listening..."])
          else (isAIResponding, [])
        else
          match m.usageMetadata with
          | some n => (isAIResponding, [CliEffect.logLine ("Token usage: " ++ toString n)])
          | none => (isAIResponding, [])
  | none =>
    match m.usageMetadata with
    | some n => (isAIResponding, [CliEffect.logLine ("Token usage: " ++ toString n)])
    | none => (isAIResponding, [])

/-- Processing a list of upstream messages through the server onmessage
callback, accumulating the emissions in order. -/
def runMessages (isAIResponding : Bool) :
    List UpstreamMessage → Bool × List ServerEffect
  | [] => (isAIResponding, [])
  | m :: ms =>
      let r := onmessage isAIResponding m
      let rest := runMessages r.fst ms
      (rest.fst, r.snd ++ rest.snd)

/-- Processing a list of upstream messages through the CLI onmessage
callback, accumulating the emissions in order. -/
def cliRunMessages (isAIResponding : Bool) :
    List UpstreamMessage → Bool × List CliEffect
  | [] => (isAIResponding, [])
  | m :: ms =>
      let r := cliOnmessage isAIResponding m
      let rest := cliRunMessages r.fst ms
      (rest.fst, r.snd ++ rest.snd)

/-- A message that takes the audio-chunk branch of onmessage: it carries
serverContent.modelTurn.parts. -/
def isChunkMessage (m : UpstreamMessage) : Bool :=
  match m.serverContent with
  | some sc => sc.modelTurnParts.isSome
  | none => false

/-- A message that takes the turn-complete branch of onmessage: it carries
serverContent with turnComplete set and no modelTurn.parts. -/
def isTurnCompleteMessage (m : UpstreamMessage) : Bool :=
  match m.serverContent with
  | some sc => sc.modelTurnParts.isNone && sc.turnComplete
  | none => false

/-- The pure turn transition performed by both onmessage callbacks. -/
def stepTurn (st : Bool) (m : UpstreamMessage) : Bool :=
  if isChunkMessage m then true
  else if isTurnCompleteMessage m then false
  else st

/-- An upstream audio-chunk message with a single part. -/
def audioChunkMsg (data mime : String) : UpstreamMessage :=
  { serverContent := some { modelTurnParts := some [{ inlineData := some { data := data, mimeType := some mime } }],
                            turnComplete := false },
    usageMetadata := none }

/-- An upstream turn-complete message. -/
def turnCompleteMsg : UpstreamMessage :=
  { serverContent := some { modelTurnParts := none, turnComplete := true },
    usageMetadata := none }

lemma onmessage_fst (st : Bool) (m : UpstreamMessage) :
    (onmessage st m).fst = stepTurn st m := by
  rcases m with ⟨sc, um⟩
  rcases sc with _ | ⟨mtp, tc⟩
  · rcases um with _ | n <;> cases st <;>
      simp [onmessage, stepTurn, isChunkMessage, isTurnCompleteMessage]
  · rcases mtp with _ | parts
    · cases tc <;> cases st <;> rcases um with _ | n <;>
        simp [onmessage, stepTurn, isChunkMessage, isTurnCompleteMessage]
    · cases st <;>
        simp [onmessage, stepTurn, isChunkMessage, isTurnCompleteMessage]

lemma cliOnmessage_fst (st : Bool) (m : UpstreamMessage) :
    (cliOnmessage st m).fst = stepTurn st m := by
  rcases m with ⟨sc, um⟩
  rcases sc with _ | ⟨mtp, tc⟩
  · rcases um with _ | n <;> cases st <;>
      simp [cliOnmessage, stepTurn, isChunkMessage, isTurnCompleteMessage]
  · rcases mtp with _ | parts
    · cases tc <;> cases st <;> rcases um with _ | n <;>
        simp [cliOnmessage, stepTurn, isChunkMessage, isTurnCompleteMessage]
    · cases st <;>
        simp [cliOnmessage, stepTurn, isChunkMessage, isTurnCompleteMessage]

lemma runMessages_fst (ms : List UpstreamMessage) :
    ∀ st : Bool, (runMessages st ms).fst = ms.foldl stepTurn st := by
  induction ms with
  | nil => intro st; rfl
  | cons m ms ih =>
      intro st
      simp only [runMessages, List.foldl_cons, ih, onmessage_fst]

lemma cliRunMessages_fst (ms : List UpstreamMessage) :
    ∀ st : Bool, (cliRunMessages st ms).fst = ms.foldl stepTurn st := by
  induction ms with
  | nil => intro st; rfl
  | cons m ms ih =>
      intro st
      simp only [cliRunMessages, List.foldl_cons, ih, cliOnmessage_fst]

/-- The claim-side reading of the turn invariant: the message list splits so
that its final segment contains at least one audio-chunk message and no
turn-complete message, i.e. a chunk has been processed since the last
turn-complete (or since connect, when no turn-complete occurred at all). -/
def ChunkSinceLastTurnComplete (ms : List UpstreamMessage) : Prop :=
  ∃ hd tl, ms = hd ++ tl ∧ (∃ m ∈ tl, isChunkMessage m = true) ∧
    ∀ m ∈ tl, isTurnCompleteMessage m = false

lemma not_turnComplete_of_chunk {m : UpstreamMessage}
    (h : isChunkMessage m = true) : isTurnCompleteMessage m = false := by
  rcases m with ⟨sc, um⟩
  rcases sc with _ | ⟨mtp, tc⟩
  · simp [isChunkMessage] at h
  · rcases mtp with _ | parts
    · simp [isChunkMessage] at h
    · simp [isTurnCompleteMessage]

lemma foldl_stepTurn_eq_true_iff (b : Bool) (ms : List UpstreamMessage) :
    ms.foldl stepTurn b = true ↔
      ChunkSinceLastTurnComplete ms ∨
        (b = true ∧ ∀ m ∈ ms, isTurnCompleteMessage m = false) := by
  induction ms using List.reverseRecOn with
  | nil =>
      constructor
      · intro hb
        exact Or.inr ⟨hb, by intro m hm; cases hm⟩
      · rintro (⟨hd, tl, heq, ⟨c, hcm, _⟩, _⟩ | ⟨hb, _⟩)
        · exfalso
          have h2 : tl = [] := (List.append_eq_nil.mp heq.symm).2
          subst h2
          cases hcm
        · exact hb
  | append_singleton ms m ih =>
      rw [List.foldl_append, List.foldl_cons, List.foldl_nil]
      by_cases hc : isChunkMessage m = true
      · constructor
        · intro _
          refine Or.inl ⟨ms, [m], rfl, ⟨m, List.mem_singleton_self m, hc⟩, ?_⟩
          intro m' hm'
          rw [List.mem_singleton.mp hm']
          exact not_turnComplete_of_chunk hc
        · intro _
          simp [stepTurn, hc]
      · have hcf : isChunkMessage m = false := by simpa using hc
        by_cases ht : isTurnCompleteMessage m = true
        · have hlhs : stepTurn (ms.foldl stepTurn b) m = false := by
            simp [stepTurn, hcf, ht]
          rw [hlhs]
          constructor
          · intro h; exact absurd h (by decide)
          · intro h
            exfalso
            rcases h with ⟨hd, tl, heq, ⟨c, hcm, hchunk⟩, hall⟩ | ⟨hb, hnone⟩
            · rcases List.eq_nil_or_concat tl with htl | ⟨tl2, x, htl⟩
              · subst htl; cases hcm
              · subst htl
                have heq2 : ms ++ [m] = (hd ++ tl2) ++ [x] := by
                  rw [heq, List.concat_eq_append, List.append_assoc]
                obtain ⟨hms, hsx⟩ := List.append_inj' heq2 rfl
                have hmx : m = x := by injection hsx
                have hxf : isTurnCompleteMessage x = false :=
                  hall x (by simp [List.concat_eq_append])
                rw [← hmx, ht] at hxf
                cases hxf
            · have hmf := hnone m (by simp)
              rw [ht] at hmf
              cases hmf
        · have htf : isTurnCompleteMessage m = false := by simpa using ht
          have hstep : stepTurn (ms.foldl stepTurn b) m = ms.foldl stepTurn b := by
            simp [stepTurn, hcf, htf]
          rw [hstep, ih]
          constructor
          · rintro (⟨hd, tl, heq, ⟨c, hcm, hchunk⟩, hall⟩ | ⟨hb, hnone⟩)
            · refine Or.inl ⟨hd, tl ++ [m], by rw [heq, List.append_assoc],
                ⟨c, List.mem_append.mpr (Or.inl hcm), hchunk⟩, ?_⟩
              intro m' hm'
              rcases List.mem_append.mp hm' with h | h
              · exact hall m' h
              · rw [List.mem_singleton.mp h]; exact htf
            · refine Or.inr ⟨hb, ?_⟩
              intro m' hm'
              rcases List.mem_append.mp hm' with h | h
              · exact hnone m' h
              · rw [List.mem_singleton.mp h]; exact htf
          · rintro (⟨hd, tl, heq, ⟨c, hcm, hchunk⟩, hall⟩ | ⟨hb, hnone⟩)
            · rcases List.eq_nil_or_concat tl with htl | ⟨tl2, x, htl⟩
              · subst htl; cases hcm
              · subst htl
                have heq2 : ms ++ [m] = (hd ++ tl2) ++ [x] := by
                  rw [heq, List.concat_eq_append, List.append_assoc]
                obtain ⟨hms, hsx⟩ := List.append_inj' heq2 rfl
                have hmx : m = x := by injection hsx
                rw [List.concat_eq_append] at hcm
                rcases List.mem_append.mp hcm with h | h
                · refine Or.inl ⟨hd, tl2, hms, ⟨c, h, hchunk⟩, ?_⟩
                  intro m' hm'
                  have hm2 : m' ∈ tl2.concat x := by
                    rw [List.concat_eq_append]
                    exact List.mem_append.mpr (Or.inl hm')
                  exact hall m' hm2
                · exfalso
                  rw [List.mem_singleton.mp h, ← hmx] at hchunk
                  rw [hchunk] at hcf
                  cases hcf
            · refine Or.inr ⟨hb, ?_⟩
              intro m' hm'
              exact hnone m' (List.mem_append.mpr (Or.inl hm'))

/-- C1: for every sequence of upstream messages processed by a session
message handler, in both the server and the CLI relay, the turn flag is
AIResponding exactly when at least one audio-chunk message (a message
carrying serverContent.modelTurn.parts) has been processed since the last
turn-complete message, or since the session connected. -/
theorem aiResponding_iff_chunkSinceLastTurnComplete (ms : List UpstreamMessage) :
    ((runMessages false ms).fst = true ↔ ChunkSinceLastTurnComplete ms) ∧
    ((cliRunMessages false ms).fst = true ↔ ChunkSinceLastTurnComplete ms) := by
  constructor
  · rw [runMessages_fst, foldl_stepTurn_eq_true_iff]
    simp
  · rw [cliRunMessages_fst, foldl_stepTurn_eq_true_iff]
    simp

/-- Witness for C1: a single audio-chunk message leaves the handler in the
AIResponding state, and the invariant instantiates there. -/
theorem aiResponding_iff_chunkSince_witness :
    ChunkSinceLastTurnComplete [audioChunkMsg "abc" "audio/pcm"] :=
  ((aiResponding_iff_chunkSinceLastTurnComplete
    [audioChunkMsg "abc" "audio/pcm"]).1).mp rfl

/-- An asynchronous event delivered by the upstream connection to the
callbacks of one session (onopen / onmessage / onerror / onclose). -/
inductive UpstreamEvent where
  | opened
  | message (m : UpstreamMessage)
  | errored (message : String)
  | closed (reason : Option String)
deriving DecidableEq

/-- The full callback set of createVoiceSession (server.js) folded over one
upstream event: onopen sets isConnected and emits voice-connected; onmessage
updates the turn flag; onerror only logs and emits voice-error; onclose
clears isConnected and emits voice-disconnected. -/
def handleEvent (st : VoiceState) (e : UpstreamEvent) :
    VoiceState × List ServerEffect :=
  match e with
  | .opened =>
      ({ st with isConnected := true },
       [ServerEffect.log "Voice session connected", ServerEffect.emitVoiceConnected])
  | .message m =>
      let r := onmessage st.isAIResponding m
      ({ st with isAIResponding := r.fst }, r.snd)
  | .errored msg =>
      (st, [ServerEffect.log "Voice session error", ServerEffect.emitVoiceError msg])
  | .closed _ =>
      ({ st with isConnected := false },
       [ServerEffect.log "Voice session closed", ServerEffect.emitVoiceDisconnected])

/-- The callback set of runLiveVoice (index.js; final.js identical) folded
over one upstream event. onerror runs cleanupAndExit: stop the microphone,
end the speaker, close the session when connected, clear isConnected and
exit the process. onclose only clears isConnected. -/
def cliHandleEvent (st : VoiceState) (e : UpstreamEvent) :
    VoiceState × List CliEffect :=
  match e with
  | .opened =>
      ({ st with isConnected := true },
       [CliEffect.logLine "Session connected.", CliEffect.micStart,
        CliEffect.logLine "Microphone started. Listening..."])
  | .message m =>
      let r := cliOnmessage st.isAIResponding m
      ({ st with isAIResponding := r.fst }, r.snd)
  | .errored msg =>
      ({ st with isConnected := false },
       [CliEffect.logLine ("Session error: " ++ msg),
        CliEffect.logLine "Cleaning up and exiting...",
        CliEffect.micStop, CliEffect.speakerEnd] ++
       (if st.isConnected then [CliEffect.sessionClose] else []) ++
       [CliEffect.processExit])
  | .closed _ =>
      ({ st with isConnected := false }, [CliEffect.logLine "Session closed"])

/-- One entry of the activeVoiceSessions map: the upstream session handle is
abstracted as a numeric identifier, next to the two closure booleans. -/
structure VoiceSessionEntry where
  handle : Nat
  state : VoiceState
deriving DecidableEq

/-- JS Map.get on an association list with unique keys. -/
def mapLookup (k : String) : List (String × α) → Option α
  | [] => none
  | (k2, v) :: rest => if k2 = k then some v else mapLookup k rest

/-- JS Map.set on an association list with unique keys: replace the entry
when the key is present, append it otherwise. -/
def setEntry : List (String × α) → String → α → List (String × α)
  | [], k, v => [(k, v)]
  | (k2, v2) :: rest, k, v =>
      if k2 = k then (k, v) :: rest else (k2, v2) :: setEntry rest k v

/-- The socket audio-data handler (server.js): look the session up, gate on
isConnected and not isAIResponding, then try sendRealtimeInput; on a throw
log and emit an error message; otherwise log that the session is not ready.
The frame is never stored: the map is returned unchanged in every branch. -/
def onAudioData (sessions : List (String × VoiceSessionEntry))
    (socketId : String) (audioData : String) (sendOk : Bool) :
    List (String × VoiceSessionEntry) × List ServerEffect :=
  let received := ServerEffect.log "Received audio data"
  match mapLookup socketId sessions with
  | some vs =>
      if vs.state.isConnected && !vs.state.isAIResponding then
        if sendOk then
          (sessions, [received, ServerEffect.log "Sending audio to Gemini...",
                      ServerEffect.upstreamSend audioData micMimeType])
        else
          (sessions, [received, ServerEffect.log "Sending audio to Gemini...",
                      ServerEffect.log "Error sending audio",
                      ServerEffect.emitError "Error processing audio"])
      else (sessions, [received, ServerEffect.log "Voice session not ready"])
  | none => (sessions, [received, ServerEffect.log "Voice session not ready"])

/-- The micStream data handler (index.js / final.js): gate on isConnected
and not isAIResponding, then try sendRealtimeInput; on a throw only log.
A gated or failed frame is dropped, never queued. -/
def micOnData (isConnected isAIResponding : Bool) (chunk : String)
    (sendOk : Bool) : List CliEffect :=
  if isConnected && !isAIResponding then
    if sendOk then [CliEffect.sendAudio chunk micMimeType]
    else [CliEffect.logLine "Error sending audio"]
  else []

/-- C2: a capture frame arriving while the turn state is AIResponding is
never forwarded to sendRealtimeInput, in the server audio-data handler and
in the CLI micStream handler alike; the handler only logs, and the session
map is returned unchanged, so the frame is dropped, not buffered. -/
theorem aiResponding_frames_never_sent_upstream :
    (∀ (sessions : List (String × VoiceSessionEntry))
       (socketId audioData : String) (vs : VoiceSessionEntry) (sendOk : Bool),
       mapLookup socketId sessions = some vs →
       vs.state.isAIResponding = true →
       onAudioData sessions socketId audioData sendOk =
         (sessions, [ServerEffect.log "Received audio data",
                     ServerEffect.log "Voice session not ready"])) ∧
    (∀ (isConnected : Bool) (chunk : String) (sendOk : Bool),
       micOnData isConnected true chunk sendOk = []) := by
  constructor
  · intro sessions socketId audioData vs sendOk hlook hresp
    unfold onAudioData
    rw [hlook]
    simp [hresp]
  · intro isConnected chunk sendOk
    simp [micOnData]

/-- Witness for C2 at a concrete map, socket id and frame. -/
theorem aiResponding_frames_never_sent_upstream_witness :
    onAudioData [("sock1", ⟨0, ⟨true, true⟩⟩)] "sock1" "frame" true =
      ([("sock1", ⟨0, ⟨true, true⟩⟩)],
       [ServerEffect.log "Received audio data",
        ServerEffect.log "Voice session not ready"]) :=
  aiResponding_frames_never_sent_upstream.1
    [("sock1", ⟨0, ⟨true, true⟩⟩)] "sock1" "frame" ⟨0, ⟨true, true⟩⟩ true rfl rfl

lemma start_not_mem_partEffects (p : MessagePart) :
    ServerEffect.emitAiSpeakingStart ∉ partEffects p := by
  rcases p with ⟨_ | d⟩
  · simp [partEffects]
  · by_cases h : d.data = "" <;> simp [partEffects, h]

lemma micPause_not_mem_cliPartEffects (p : MessagePart) :
    CliEffect.micPause ∉ cliPartEffects p := by
  rcases p with ⟨_ | d⟩
  · simp [cliPartEffects]
  · by_cases h : d.data = "" <;> simp [cliPartEffects, h]

/-- C4: the mute and unmute emissions are per-transition. A further
audio-chunk message while already AIResponding emits no additional
ai-speaking-start (respectively no additional microphone pause) and keeps
the state; a turn-complete message while already Idle emits nothing at all
and does not error. Both the server and the CLI handler are covered. -/
theorem mute_unmute_effects_idempotent :
    (∀ (parts : List MessagePart) (tc : Bool) (um : Option Nat),
       ServerEffect.emitAiSpeakingStart ∉
         (onmessage true ⟨some ⟨some parts, tc⟩, um⟩).snd ∧
       (onmessage true ⟨some ⟨some parts, tc⟩, um⟩).fst = true) ∧
    (∀ um : Option Nat,
       onmessage false ⟨some ⟨none, true⟩, um⟩ = (false, [])) ∧
    (∀ (parts : List MessagePart) (tc : Bool) (um : Option Nat),
       CliEffect.micPause ∉
         (cliOnmessage true ⟨some ⟨some parts, tc⟩, um⟩).snd ∧
       (cliOnmessage true ⟨some ⟨some parts, tc⟩, um⟩).fst = true) ∧
    (∀ um : Option Nat,
       cliOnmessage false ⟨some ⟨none, true⟩, um⟩ = (false, [])) := by
  refine ⟨?_, ?_, ?_, ?_⟩
  · intro parts tc um
    refine ⟨?_, rfl⟩
    intro hmem
    simp only [onmessage, if_true, List.nil_append] at hmem
    rcases List.mem_flatten.mp hmem with ⟨l, hl, hml⟩
    rcases List.mem_map.mp hl with ⟨p, _, rfl⟩
    exact start_not_mem_partEffects p hml
  · intro um; rfl
  · intro parts tc um
    refine ⟨?_, rfl⟩
    intro hmem
    simp only [cliOnmessage, if_true, List.nil_append] at hmem
    rcases List.mem_flatten.mp hmem with ⟨l, hl, hml⟩
    rcases List.mem_map.mp hl with ⟨p, _, rfl⟩
    exact micPause_not_mem_cliPartEffects p hml
  · intro um; rfl

/-- Witness for C4: concrete chunk and turn-complete messages, processed in
the already-mute and the already-idle state respectively. -/
theorem mute_unmute_effects_idempotent_witness :
    (ServerEffect.emitAiSpeakingStart ∉
       (onmessage true ⟨some ⟨some [⟨some ⟨"x", some "audio/pcm"⟩⟩], false⟩, none⟩).snd) ∧
    onmessage false ⟨some ⟨none, true⟩, none⟩ = (false, []) ∧
    cliOnmessage false ⟨some ⟨none, true⟩, none⟩ = (false, []) :=
  ⟨(mute_unmute_effects_idempotent.1 [⟨some ⟨"x", some "audio/pcm"⟩⟩] false none).1,
   mute_unmute_effects_idempotent.2.1 none,
   mute_unmute_effects_idempotent.2.2.2 none⟩

/-- C5: upstream messages AudioChunk(A), AudioChunk(B), TurnComplete produce
the playback or client emissions for A strictly before those for B, in both
relays, and the turn state stays AIResponding (capture suppressed) until the
turn-complete message is processed. -/
theorem chunk_ordering_within_turn (a b ma mb : String)
    (ha : a ≠ "") (hb : b ≠ "") :
    runMessages false [audioChunkMsg a ma, audioChunkMsg b mb, turnCompleteMsg] =
      (false,
       [ServerEffect.emitAiSpeakingStart,
        ServerEffect.log "Audio chunk details",
        ServerEffect.emitAudioResponse a (jsOrDefault (some ma) "audio/pcm"),
        ServerEffect.log "Audio chunk details",
        ServerEffect.emitAudioResponse b (jsOrDefault (some mb) "audio/pcm"),
        ServerEffect.emitAiSpeakingEnd]) ∧
    (runMessages false [audioChunkMsg a ma]).fst = true ∧
    (runMessages false [audioChunkMsg a ma, audioChunkMsg b mb]).fst = true ∧
    cliRunMessages false [audioChunkMsg a ma, audioChunkMsg b mb, turnCompleteMsg] =
      (false,
       [CliEffect.logLine "AI Speaking, microphone paused...",
        CliEffect.micPause,
        CliEffect.speakerWrite a,
        CliEffect.speakerWrite b,
        CliEffect.logLine "AI turn complete. Resuming microphone...",
        CliEffect.micResume,
        CliEffect.logLine "Listening..."]) := by
  refine ⟨?_, rfl, rfl, ?_⟩
  · simp [runMessages, onmessage, audioChunkMsg, turnCompleteMsg, partEffects, ha, hb]
  · simp [cliRunMessages, cliOnmessage, audioChunkMsg, turnCompleteMsg, cliPartEffects, ha, hb]

/-- Witness for C5 at concrete payloads. -/
theorem chunk_ordering_within_turn_witness :
    runMessages false [audioChunkMsg "A" "m1", audioChunkMsg "B" "m2", turnCompleteMsg] =
      (false,
       [ServerEffect.emitAiSpeakingStart,
        ServerEffect.log "Audio chunk details",
        ServerEffect.emitAudioResponse "A" (jsOrDefault (some "m1") "audio/pcm"),
        ServerEffect.log "Audio chunk details",
        ServerEffect.emitAudioResponse "B" (jsOrDefault (some "m2") "audio/pcm"),
        ServerEffect.emitAiSpeakingEnd]) :=
  (chunk_ordering_within_turn "A" "B" "m1" "m2" (by decide) (by decide)).1

/-- C3 fails on the code: after an upstream error or close event received in
state AIResponding, the turn flag is still AIResponding, so the capture side
stays suppressed; no forced reset to Idle happens in either relay. -/
theorem error_close_leave_aiResponding_counterexample :
    ((handleEvent ⟨true, true⟩ (UpstreamEvent.errored "upstream failure")).fst.isAIResponding = true) ∧
    ((handleEvent ⟨true, true⟩ (UpstreamEvent.closed none)).fst.isAIResponding = true) ∧
    ((cliHandleEvent ⟨true, true⟩ (UpstreamEvent.closed none)).fst.isAIResponding = true) :=
  ⟨rfl, rfl, rfl⟩

/-- C3 amended: an upstream error leaves the session state of the server
relay unchanged (only a log and a voice-error emission), and a close clears
the connected flag but leaves the turn flag untouched and emits no unmute,
in the server and CLI relays alike. -/
theorem error_and_close_leave_turn_state_unchanged
    (st : VoiceState) (msg : String) (r : Option String) :
    handleEvent st (UpstreamEvent.errored msg) =
      (st, [ServerEffect.log "Voice session error", ServerEffect.emitVoiceError msg]) ∧
    handleEvent st (UpstreamEvent.closed r) =
      ({ st with isConnected := false },
       [ServerEffect.log "Voice session closed", ServerEffect.emitVoiceDisconnected]) ∧
    cliHandleEvent st (UpstreamEvent.closed r) =
      ({ st with isConnected := false }, [CliEffect.logLine "Session closed"]) :=
  ⟨rfl, rfl, rfl⟩

/-- C6 fails on the code: the server onerror callback neither closes the
upstream session nor marks the session closed; the state comes back
unchanged, with only a log and the voice-error emission as effects. -/
theorem upstream_error_no_force_close_counterexample :
    handleEvent ⟨true, false⟩ (UpstreamEvent.errored "boom") =
      (⟨true, false⟩,
       [ServerEffect.log "Voice session error", ServerEffect.emitVoiceError "boom"]) :=
  rfl

/-- C6 amended: on an upstream error the server relay logs and surfaces the
error to the owning client and does nothing else - the connection state is
kept and the upstream session is not closed; the CLI relay instead tears
down its whole single session (microphone stop, speaker end, close when
connected, process exit). Neither relay emits any reconnect effect. -/
theorem upstream_error_reported_without_close (st : VoiceState) (msg : String) :
    handleEvent st (UpstreamEvent.errored msg) =
      (st, [ServerEffect.log "Voice session error", ServerEffect.emitVoiceError msg]) ∧
    cliHandleEvent st (UpstreamEvent.errored msg) =
      ({ st with isConnected := false },
       [CliEffect.logLine ("Session error: " ++ msg),
        CliEffect.logLine "Cleaning up and exiting...",
        CliEffect.micStop, CliEffect.speakerEnd] ++
       (if st.isConnected then [CliEffect.sessionClose] else []) ++
       [CliEffect.processExit]) :=
  ⟨rfl, rfl⟩

/-- C7: a client audio frame for a socket id with no active voice session is
dropped with a log; the handler returns normally with the registry unchanged
and forwards nothing upstream, so other clients are unaffected. -/
theorem unknown_session_audio_dropped
    (sessions : List (String × VoiceSessionEntry))
    (socketId audioData : String) (sendOk : Bool)
    (h : mapLookup socketId sessions = none) :
    onAudioData sessions socketId audioData sendOk =
      (sessions, [ServerEffect.log "Received audio data",
                  ServerEffect.log "Voice session not ready"]) := by
  unfold onAudioData
  rw [h]

/-- Witness for C7: an unknown socket id against an empty registry. -/
theorem unknown_session_audio_dropped_witness :
    onAudioData [] "missing-id" "frame" true =
      ([], [ServerEffect.log "Received audio data",
            ServerEffect.log "Voice session not ready"]) :=
  unknown_session_audio_dropped [] "missing-id" "frame" true rfl

/-- C8: when sendRealtimeInput throws on a frame, the handler logs and
reports the error, the frame is dropped, and the session survives: the
registry and session state are unchanged and a later frame is sent
normally. The CLI micStream handler only logs and likewise continues. -/
theorem send_failure_recovered_locally :
    (∀ (sessions : List (String × VoiceSessionEntry))
       (socketId d1 d2 : String) (vs : VoiceSessionEntry),
       mapLookup socketId sessions = some vs →
       vs.state.isConnected = true →
       vs.state.isAIResponding = false →
       onAudioData sessions socketId d1 false =
         (sessions, [ServerEffect.log "Received audio data",
                     ServerEffect.log "Sending audio to Gemini...",
                     ServerEffect.log "Error sending audio",
                     ServerEffect.emitError "Error processing audio"]) ∧
       onAudioData sessions socketId d2 true =
         (sessions, [ServerEffect.log "Received audio data",
                     ServerEffect.log "Sending audio to Gemini...",
                     ServerEffect.upstreamSend d2 micMimeType])) ∧
    (∀ d1 d2 : String,
       micOnData true false d1 false = [CliEffect.logLine "Error sending audio"] ∧
       micOnData true false d2 true = [CliEffect.sendAudio d2 micMimeType]) := by
  constructor
  · intro sessions socketId d1 d2 vs hlook hconn hresp
    constructor <;> (unfold onAudioData; rw [hlook]; simp [hconn, hresp])
  · intro d1 d2
    exact ⟨rfl, rfl⟩

/-- Witness for C8: one failing then one succeeding frame on a live idle
session. -/
theorem send_failure_recovered_locally_witness :
    onAudioData [("sock1", ⟨0, ⟨true, false⟩⟩)] "sock1" "f1" false =
      ([("sock1", ⟨0, ⟨true, false⟩⟩)],
       [ServerEffect.log "Received audio data",
        ServerEffect.log "Sending audio to Gemini...",
        ServerEffect.log "Error sending audio",
        ServerEffect.emitError "Error processing audio"]) ∧
    onAudioData [("sock1", ⟨0, ⟨true, false⟩⟩)] "sock1" "f2" true =
      ([("sock1", ⟨0, ⟨true, false⟩⟩)],
       [ServerEffect.log "Received audio data",
        ServerEffect.log "Sending audio to Gemini...",
        ServerEffect.upstreamSend "f2" micMimeType]) :=
  send_failure_recovered_locally.1
    [("sock1", ⟨0, ⟨true, false⟩⟩)] "sock1" "f1" "f2" ⟨0, ⟨true, false⟩⟩ rfl rfl rfl

/-- One stored document of a session context: its name and full text. -/
structure DocumentEntry where
  name : String
  content : String
deriving DecidableEq

/-- One entry of the agentSessions store: agent type plus the ordered
document list. -/
structure SessionData where
  agentType : String
  documents : List DocumentEntry
deriving DecidableEq

/-- The socket start-voice-session handler (server.js): look up the stored
agent session; when absent emit an error message; otherwise create a voice
session (connectResult stands for the awaited ai.live.connect call: a fresh
handle, or a thrown error) and store it under the socket id with Map.set,
which replaces any existing entry without inspecting it. -/
def onStartVoiceSession (agentSessions : List (String × SessionData))
    (active : List (String × VoiceSessionEntry))
    (socketId sessionId : String) (connectResult : Except String Nat) :
    List (String × VoiceSessionEntry) × List ServerEffect :=
  match mapLookup sessionId agentSessions with
  | none => (active, [ServerEffect.emitError "Session not found"])
  | some _ =>
      match connectResult with
      | .ok h =>
          (setEntry active socketId ⟨h, ⟨false, false⟩⟩,
           [ServerEffect.log "System Instruction Generated",
            ServerEffect.emitVoiceSessionStarted])
      | .error e =>
          (active, [ServerEffect.log "System Instruction Generated",
                    ServerEffect.log "Error starting voice session",
                    ServerEffect.emitError e])

/-- C9 fails on the code: a second start-voice-session on a socket that
already holds a connected voice session (handle 0) silently replaces the
registry entry with the fresh session (handle 1); no error of any kind is
reported and the previous session is not closed. -/
theorem second_start_silently_replaces_counterexample :
    onStartVoiceSession [("sess1", ⟨"support agent", []⟩)]
        [("sock1", ⟨0, ⟨true, false⟩⟩)] "sock1" "sess1" (Except.ok 1) =
      ([("sock1", ⟨1, ⟨false, false⟩⟩)],
       [ServerEffect.log "System Instruction Generated",
        ServerEffect.emitVoiceSessionStarted]) := by
  decide

/-- C9 amended: whenever the stored agent session exists and the upstream
connect succeeds, the start handler stores the fresh voice session under
the socket id via Map.set - overwriting any existing entry - and emits only
the started notification: an existing connected session for the same socket
is neither reported as an error nor closed. -/
theorem start_voice_session_overwrites_entry
    (agentSessions : List (String × SessionData))
    (active : List (String × VoiceSessionEntry))
    (socketId sessionId : String) (h : Nat) (d : SessionData)
    (hlook : mapLookup sessionId agentSessions = some d) :
    onStartVoiceSession agentSessions active socketId sessionId (Except.ok h) =
      (setEntry active socketId ⟨h, ⟨false, false⟩⟩,
       [ServerEffect.log "System Instruction Generated",
        ServerEffect.emitVoiceSessionStarted]) := by
  unfold onStartVoiceSession
  rw [hlook]

/-- Witness for C9 amended, at the same concrete registry as the
counterexample. -/
theorem start_voice_session_overwrites_entry_witness :
    onStartVoiceSession [("sess1", ⟨"support agent", []⟩)]
        [("sock1", ⟨0, ⟨true, false⟩⟩)] "sock1" "sess1" (Except.ok 2) =
      (setEntry [("sock1", ⟨0, ⟨true, false⟩⟩)] "sock1" ⟨2, ⟨false, false⟩⟩,
       [ServerEffect.log "System Instruction Generated",
        ServerEffect.emitVoiceSessionStarted]) :=
  start_voice_session_overwrites_entry
    [("sess1", ⟨"support agent", []⟩)] [("sock1", ⟨0, ⟨true, false⟩⟩)]
    "sock1" "sess1" 2 ⟨"support agent", []⟩ (by decide)

/-- Array.prototype.join with a separator, as the sources use on the mapped
document lists. -/
def joinSep (sep : String) : List String → String
  | [] => ""
  | [a] => a
  | a :: b :: rest => a ++ sep ++ joinSep sep (b :: rest)

lemma joinSep_mem_split {α : Type} (sep : String) (f : α → String) :
    ∀ (l : List α) (d : α), d ∈ l →
      ∃ pre post, joinSep sep (l.map f) = pre ++ (f d ++ post) := by
  intro l
  induction l with
  | nil => intro d hd; cases hd
  | cons a t ih =>
      intro d hd
      rcases List.mem_cons.mp hd with rfl | hdt
      · cases t with
        | nil =>
            exact ⟨"", "", by simp [joinSep]⟩
        | cons b t2 =>
            refine ⟨"", sep ++ joinSep sep ((b :: t2).map f), ?_⟩
            simp [joinSep, String.append_assoc]
      · rcases t with _ | ⟨b, t2⟩
        · cases hdt
        · rcases ih d hdt with ⟨pre, post, hsplit⟩
          refine ⟨f a ++ sep ++ pre, post, ?_⟩
          simp only [List.map_cons] at hsplit
          simp only [List.map_cons, joinSep, hsplit, String.append_assoc]

/-- The per-document block of generateSystemInstruction (server.js). -/
def documentBlock (d : DocumentEntry) : String :=
  "\n=== DOCUMENT: " ++ d.name ++ " ===\n" ++ d.content ++
  "\n============================\n"

/-- The template text of generateSystemInstruction before the document
library (server.js), with the agent type and the document count
interpolated. -/
def instructionHead (sessionData : SessionData) : String :=
  "# VOICE AGENT ASSISTANT\n\n## ROLE & IDENTITY\nYou are a professional " ++
  sessionData.agentType ++
  " voice assistant. You represent this organization with expertise, professionalism, and helpfulness. Your primary goal is to assist callers efficiently while maintaining a warm, professional demeanor.\n\n## KNOWLEDGE BASE\nYou have access to comprehensive company information through " ++
  toString sessionData.documents.length ++
  " uploaded documents. Always reference specific information from these documents when answering questions.\n\n## DOCUMENT LIBRARY:\n"

/-- The template text of generateSystemInstruction after the document
library (server.js). -/
def instructionTail : String :=
  "\n\n## CONVERSATION GUIDELINES\n\n### Communication Style:\n- **Professional & Conversational**: Maintain business professionalism while being approachable and natural\n- **Concise & Complete**: Provide thorough answers without unnecessary verbosity  \n- **Reference-Based**: Always cite specific information from the documents when applicable\n- **Proactive**: Anticipate needs and offer relevant additional assistance\n\n### Response Framework:\n1. **Acknowledge** the request clearly\n2. **Reference specific information** from the uploaded documents \n3. **Provide complete, actionable answers**\n4. **Offer additional relevant assistance**\n\n### When Referencing Documents:\n- Say \"According to our [document name/policy/directory]...\"\n- Quote specific information like names, numbers, procedures\n- Reference exact details like phone extensions, hours, policies\n- Cross-reference multiple documents when relevant\n\n### For Information You Don\x27t Have:\n- \"I don\x27t have that specific information in my current knowledge base\"\n- \"Let me connect you with [relevant person/department] who can help with that\"\n- \"I\x27d be happy to take your contact information so someone can follow up\"\n\n### For Complex Requests:\n- Break down multi-step processes clearly\n- Provide step-by-step guidance when needed\n- Confirm understanding before proceeding\n- Offer to walk through processes slowly\n\n### Voice-Optimized Responses:\n- Use natural speech patterns and pausing\n- Spell out important information when needed\n- Confirm understanding of complex details\n- Ask clarifying questions when requests are unclear\n\n## QUALITY STANDARDS\n- **Accuracy First**: Only provide information you can verify from the documents\n- **Source Attribution**: Reference specific documents or sections when providing information  \n- **Professional Boundaries**: Know when to escalate or transfer calls\n- **Follow-up Excellence**: Always ask if there\x27s anything else you can help with\n\nRemember: You are the voice of this organization. Every interaction should leave callers feeling valued, informed, and satisfied with the service they received."

/-- generateSystemInstruction (server.js): the template with the joined
per-document blocks in the document-library slot. -/
def generateSystemInstruction (sessionData : SessionData) : String :=
  instructionHead sessionData ++
  joinSep "\n" (sessionData.documents.map documentBlock) ++
  instructionTail

/-- The per-document block of the context system instruction (final.js). -/
def contextDocBlock (d : DocumentEntry) : String :=
  "\n" ++ d.name ++ ":\n" ++ d.content ++ "\n"

/-- The systemInstruction string built by runLiveVoiceWithContext
(final.js). -/
def contextSystemInstruction (ctx : SessionData) : String :=
  "You are a " ++ ctx.agentType ++
  " voice assistant. Your responses should be conversational, yet concise.\n\nYou have access to the following documents and information:\n" ++
  joinSep "\n" (ctx.documents.map contextDocBlock) ++
  "\n\nUse this information to provide accurate, helpful responses. Always refer to the specific information in your documents when relevant."

/-- C10: the system instruction built at session start contains, for every
document of the session context, that document name and its full content
verbatim inside its own delimited block (the named DOCUMENT block in the
server builder, the name-colon block in the CLI builder), which keeps each
document distinguishable from every other one in the built string. -/
theorem system_instruction_contains_documents
    (sd : SessionData) (d : DocumentEntry) (hmem : d ∈ sd.documents) :
    (∃ pre post,
       generateSystemInstruction sd =
         pre ++ (("\n=== DOCUMENT: " ++ d.name ++ " ===\n" ++ d.content ++
                  "\n============================\n") ++ post)) ∧
    (∃ pre post,
       contextSystemInstruction sd =
         pre ++ (("\n" ++ d.name ++ ":\n" ++ d.content ++ "\n") ++ post)) := by
  constructor
  · rcases joinSep_mem_split "\n" documentBlock sd.documents d hmem with
      ⟨pre, post, hsplit⟩
    refine ⟨instructionHead sd ++ pre, post ++ instructionTail, ?_⟩
    unfold generateSystemInstruction
    rw [hsplit]
    simp [documentBlock, String.append_assoc]
  · rcases joinSep_mem_split "\n" contextDocBlock sd.documents d hmem with
      ⟨pre, post, hsplit⟩
    refine ⟨"You are a " ++ sd.agentType ++
      " voice assistant. Your responses should be conversational, yet concise.\n\nYou have access to the following documents and information:\n" ++ pre,
      post ++
      "\n\nUse this information to provide accurate, helpful responses. Always refer to the specific information in your documents when relevant.", ?_⟩
    unfold contextSystemInstruction
    rw [hsplit]
    simp [contextDocBlock, String.append_assoc]

/-- Witness for C10 at a concrete one-document session context. -/
theorem system_instruction_contains_documents_witness :
    (∃ pre post,
       generateSystemInstruction ⟨"support", [⟨"Doc1", "Hello"⟩]⟩ =
         pre ++ (("\n=== DOCUMENT: " ++ "Doc1" ++ " ===\n" ++ "Hello" ++
                  "\n============================\n") ++ post)) ∧
    (∃ pre post,
       contextSystemInstruction ⟨"support", [⟨"Doc1", "Hello"⟩]⟩ =
         pre ++ (("\n" ++ "Doc1" ++ ":\n" ++ "Hello" ++ "\n") ++ post)) :=
  system_instruction_contains_documents ⟨"support", [⟨"Doc1", "Hello"⟩]⟩
    ⟨"Doc1", "Hello"⟩ (List.mem_singleton_self _)
